import Mathlib

/-!
Shallow embedding of `openslides/motion/models.py` (the motion app's core:
version ledger, staged-edit commit protocol, workflow gating, supporter set,
poll numbering).

Modelling conventions:
* One `World` holds a single motion together with its persisted rows
  (version ledger, supporter memberships, poll numbers), since every claim is
  about one motion and its own rows.
* Python attribute existence (`self._title`, `self._new_version`, …) becomes
  an `Option` field; `delattr` sets it back to `none`.
* Django model saves become appends/updates on the corresponding list, with
  primary keys handed out by a monotone `nextPk` counter (Django autofields
  grow with creation order).
* Property reads that can lazily create the memoized `_new_version` object
  are state-passing: they return `value × World`.
* Exceptions become an `Except PyError` result paired with the state as left
  behind at the raise point.
* The workflow module (`openslides.motion.workflow`: `get_state`, `State`,
  `WorkflowError`) is imported by the source but is not part of this
  repository snapshot; `WfState`/`Registry` below are modelled from the spec.
-/

/-- Modelled from the spec: a workflow state of the registry (the
`openslides.motion.workflow` module is not in the source snapshot).  Carries
an id, a display name, the capability flags `support` and `poll`, and the set
of allowed next-state ids (§3, §4.1 of the spec). -/
structure WfState where
  id : String
  name : String
  support : Bool
  poll : Bool
  nextStates : List String
deriving Repr, DecidableEq

/-- Modelled from the spec: the workflow registry (§4.1).  `resolve` looks a
state up by id/token and fails (returns `none`, the embedded
`WorkflowError`) when unrecognized; the token `"default"` always resolves to
the designated entry state. -/
structure Registry where
  resolve : String → Option WfState
  defaultState : WfState
  resolve_default : resolve "default" = some defaultState

/-- The content fields of a `MotionVersion` object that the commit protocol
reads and writes (`title`, `text`, nullable `reason`).  A freshly constructed
`MotionVersion(motion=self)` has Django defaults `"" / "" / None`. -/
structure MotionVersion where
  title : String := ""
  text : String := ""
  reason : Option String := none
deriving Repr, DecidableEq

/-- A `MotionVersion` row persisted in the database: content plus its primary
key (creation order). -/
structure StoredVersion where
  pk : Nat
  ver : MotionVersion
deriving Repr, DecidableEq

/-- The in-memory (non-persisted) attributes of a `Motion` instance:
`state_id` (a `CharField`, `""` when unset), the staged-edit attributes
`_title`/`_text`/`_reason` (present or absent), the memoized `_new_version`
object, and the explicitly selected `_version`. -/
structure MotionState where
  state_id : String := ""
  stagedTitle : Option String := none
  stagedText : Option String := none
  stagedReason : Option (Option String) := none
  newVersionCache : Option MotionVersion := none
  activeVersion : Option StoredVersion := none
deriving Repr, DecidableEq

/-- The world of one motion: its persisted version ledger (in pk order), the
pk counter, its supporter membership rows, its poll numbers, and the
in-memory motion instance. -/
structure World where
  ledger : List StoredVersion := []
  nextPk : Nat := 0
  supporters : List String := []
  polls : List Nat := []
  motion : MotionState := {}
deriving Repr, DecidableEq

/-- The Python exceptions that the embedded operations can raise. -/
inductive PyError where
  | workflowError
  | valueError
  | indexError
  | assertionError
  | attributeError
deriving Repr, DecidableEq

/-- Embeds the `Motion.new_version` property: on the first call it creates a
fresh `MotionVersion(motion=self)` and memoizes it in `_new_version`; later
calls return the memoized object. -/
def Motion.new_version (w : World) : MotionVersion × World :=
  match w.motion.newVersionCache with
  | some o => (o, w)
  | none =>
      let o : MotionVersion := {}
      (o, { w with motion := { w.motion with newVersionCache := some o } })

/-- Embeds the `Motion.last_version` property:
`self.versions.order_by('id').reverse()[0]`, i.e. the stored version with the
largest pk; on `IndexError` (empty ledger) it falls back to `new_version`. -/
def Motion.last_version (w : World) : MotionVersion × World :=
  match w.ledger.getLast? with
  | some r => (r.ver, w)
  | none => Motion.new_version w

/-- Which object `Motion.last_version` hands out when `Motion.save` takes it
as the save target: a stored row (mutated in place) or the fresh
`_new_version` object. -/
inductive VersionTarget where
  | fresh (o : MotionVersion)
  | stored (pk : Nat)
deriving Repr, DecidableEq

/-- `Motion.last_version`, keeping the identity of the returned object so the
caller can save through it. -/
def Motion.last_version_ref (w : World) : VersionTarget × World :=
  match w.ledger.getLast? with
  | some r => (VersionTarget.stored r.pk, w)
  | none =>
      let (o, w) := Motion.new_version w
      (VersionTarget.fresh o, w)

/-- Embeds `Motion.get_title`: staged `_title` if present, else
`self.version.title`, where the `version` property is the selected
`_version` if present, else `last_version`. -/
def Motion.get_title (w : World) : String × World :=
  match w.motion.stagedTitle with
  | some t => (t, w)
  | none =>
      match w.motion.activeVersion with
      | some r => (r.ver.title, w)
      | none =>
          let (v, w) := Motion.last_version w
          (v.title, w)

/-- Embeds `Motion.get_text` (same shape as `get_title`). -/
def Motion.get_text (w : World) : String × World :=
  match w.motion.stagedText with
  | some t => (t, w)
  | none =>
      match w.motion.activeVersion with
      | some r => (r.ver.text, w)
      | none =>
          let (v, w) := Motion.last_version w
          (v.text, w)

/-- Embeds `Motion.get_reason` (same shape as `get_title`; the value is
nullable). -/
def Motion.get_reason (w : World) : Option String × World :=
  match w.motion.stagedReason with
  | some t => (t, w)
  | none =>
      match w.motion.activeVersion with
      | some r => (r.ver.reason, w)
      | none =>
          let (v, w) := Motion.last_version w
          (v.reason, w)

/-- Embeds `Motion.set_title`: only buffers the value in `_title`. -/
def Motion.set_title (title : String) (w : World) : World :=
  { w with motion := { w.motion with stagedTitle := some title } }

/-- Embeds `Motion.set_text`. -/
def Motion.set_text (text : String) (w : World) : World :=
  { w with motion := { w.motion with stagedText := some text } }

/-- Embeds `Motion.set_reason`. -/
def Motion.set_reason (reason : Option String) (w : World) : World :=
  { w with motion := { w.motion with stagedReason := some reason } }

/-- Embeds `Motion.reset_state`: `self.state_id = get_state('default').id`
(the spec guarantees the `"default"` token always resolves). -/
def Motion.reset_state (reg : Registry) (w : World) : World :=
  { w with motion := { w.motion with state_id := reg.defaultState.id } }

/-- Embeds the `new_data` loop of `Motion.save`: for each of
title/text/reason compare `getattr(self, attr)` with
`getattr(self.last_version, attr)` and break at the first difference.  Every
access re-runs the properties, so an empty ledger memoizes `_new_version` as
a side effect of the very first comparison. -/
def Motion.newDataCheck (w : World) : Bool × World :=
  let (t, w) := Motion.get_title w
  let (lv, w) := Motion.last_version w
  if t ≠ lv.title then (true, w) else
  let (x, w) := Motion.get_text w
  let (lv, w) := Motion.last_version w
  if x ≠ lv.text then (true, w) else
  let (r, w) := Motion.get_reason w
  let (lv, w) := Motion.last_version w
  if r ≠ lv.reason then (true, w) else (false, w)

/-- Embeds the attribute-copy loop of `Motion.save`: for each of
title/text/reason, write the staged `_attr` into the target and delete the
staged attribute; on `AttributeError` (not staged) write
`getattr(self.last_version, attr)` instead.  Returns the three values written
into the target.  Each unstaged field re-reads `last_version`, which on an
empty ledger re-creates the `_new_version` memo that `save` deleted just
before this loop. -/
def Motion.versionFieldUpdate (w : World) : (String × String × Option String) × World :=
  let (t, w) :=
    match w.motion.stagedTitle with
    | some v => (v, { w with motion := { w.motion with stagedTitle := none } })
    | none =>
        let (lv, w) := Motion.last_version w
        (lv.title, w)
  let (x, w) :=
    match w.motion.stagedText with
    | some v => (v, { w with motion := { w.motion with stagedText := none } })
    | none =>
        let (lv, w) := Motion.last_version w
        (lv.text, w)
  let (r, w) :=
    match w.motion.stagedReason with
    | some v => (v, { w with motion := { w.motion with stagedReason := none } })
    | none =>
        let (lv, w) := Motion.last_version w
        (lv.reason, w)
  ((t, x, r), w)

/-- Embeds `Motion.save`.  `alwaysNewPolicy` is the caller-side value of
`config['motion_create_new_version'] == 'ALLWASY_CREATE_NEW_VERSION'` (the
config store is external to this module).  Steps, as in the source:
set a default `state_id` when unset; persist the base record; compute
`new_data`; then either save through the memoized/fresh `_new_version`
(deleting the memo first), save through `last_version` in place, or return
without writing a version. -/
def Motion.save (reg : Registry) (alwaysNewPolicy : Bool) (w : World) : World :=
  let w := if w.motion.state_id = "" then Motion.reset_state reg w else w
  let (new_data, w) := Motion.newDataCheck w
  let need_new_version := alwaysNewPolicy
  if w.motion.newVersionCache.isSome ∨ (new_data ∧ need_new_version) then
    let (_, w) := Motion.new_version w
    let w := { w with motion := { w.motion with newVersionCache := none } }
    let ((t, x, r), w) := Motion.versionFieldUpdate w
    { w with ledger := w.ledger ++ [⟨w.nextPk, ⟨t, x, r⟩⟩], nextPk := w.nextPk + 1 }
  else if new_data then
    let (tgt, w) := Motion.last_version_ref w
    let ((t, x, r), w) := Motion.versionFieldUpdate w
    match tgt with
    | VersionTarget.stored pk =>
        { w with ledger := w.ledger.map (fun row => if row.pk = pk then ⟨row.pk, ⟨t, x, r⟩⟩ else row) }
    | VersionTarget.fresh _ =>
        -- version.save() on the not-yet-stored object inserts it.  (This arm
        -- is unreachable: an empty ledger always memoizes `_new_version`
        -- during the new_data loop, which routes save into the first branch.
        -- Python would additionally keep `_new_version` pointing at the now
        -- saved object; the memo here keeps only its field values.)
        { w with ledger := w.ledger ++ [⟨w.nextPk, ⟨t, x, r⟩⟩], nextPk := w.nextPk + 1 }
  else
    w

/-- Embeds `Motion.get_state`: `get_state(self.state_id)`, returning `None`
(the tolerant read) instead of propagating `WorkflowError` when the id does
not resolve. -/
def Motion.get_state (reg : Registry) (w : World) : Option WfState :=
  reg.resolve w.motion.state_id

/-- The argument of `Motion.set_state`: "a valid state id or State object". -/
inductive StateArg where
  | state (s : WfState)
  | token (t : String)
deriving Repr

/-- Embeds `Motion.set_state`: a non-`State` argument is first resolved via
`get_state` (raising `WorkflowError` when unknown); then the transition is
allowed only when the target is among the current state's `next_states`,
else `WorkflowError` is raised.  If the current `state_id` itself does not
resolve, `self.state` is `None` and reading `.next_states` raises
`AttributeError`. -/
def Motion.set_state (reg : Registry) (arg : StateArg) (w : World) :
    Except PyError Unit × World :=
  let resolved : Except PyError WfState :=
    match arg with
    | StateArg.state s => Except.ok s
    | StateArg.token t =>
        match reg.resolve t with
        | some s => Except.ok s
        | none => Except.error PyError.workflowError
  match resolved with
  | Except.error e => (Except.error e, w)
  | Except.ok next =>
      match Motion.get_state reg w with
      | none => (Except.error PyError.attributeError, w)
      | some cur =>
          if next.id ∈ cur.nextStates then
            (Except.ok (), { w with motion := { w.motion with state_id := next.id } })
          else (Except.error PyError.workflowError, w)

/-- Embeds `Motion.is_supporter`:
`self.supporter.filter(person=person).exists()`. -/
def Motion.is_supporter (w : World) (person : String) : Bool :=
  w.supporters.contains person

/-- Embeds `Motion.support`: raises `WorkflowError` unless the current
state's `support` flag is set; inserts a `MotionSupporter` row only when the
person is not already a supporter (already-supporter is a silent no-op). -/
def Motion.support (reg : Registry) (person : String) (w : World) :
    Except PyError Unit × World :=
  match Motion.get_state reg w with
  | none => (Except.error PyError.attributeError, w)
  | some st =>
      if st.support then
        if Motion.is_supporter w person then (Except.ok (), w)
        else (Except.ok (), { w with supporters := w.supporters ++ [person] })
      else (Except.error PyError.workflowError, w)

/-- Embeds `Motion.unsupport`: raises `WorkflowError` unless the current
state's `support` flag is set; deletes every matching membership row. -/
def Motion.unsupport (reg : Registry) (person : String) (w : World) :
    Except PyError Unit × World :=
  match Motion.get_state reg w with
  | none => (Except.error PyError.attributeError, w)
  | some st =>
      if st.support then
        (Except.ok (), { w with supporters := w.supporters.filter (fun q => q ≠ person) })
      else (Except.error PyError.workflowError, w)

/-- Embeds `Motion.create_poll`: raises `WorkflowError` unless the current
state's `poll` flag is set; otherwise computes
`self.polls.aggregate(Max('poll_number'))['poll_number__max'] or 0`, creates
a `MotionPoll` with `poll_number` one larger, and returns it (here: the new
poll number). -/
def Motion.create_poll (reg : Registry) (w : World) : Except PyError Nat × World :=
  match Motion.get_state reg w with
  | none => (Except.error PyError.attributeError, w)
  | some st =>
      if st.poll then
        let mx := w.polls.foldr max 0
        (Except.ok (mx + 1), { w with polls := w.polls ++ [mx + 1] })
      else (Except.error PyError.workflowError, w)

/-- The argument of `Motion.set_version`: `None`, an `int`, a `MotionVersion`
object, or a value of any other type. -/
inductive VersionArg where
  | noneArg
  | intArg (n : Int)
  | versionArg (v : StoredVersion)
  | otherArg
deriving Repr, DecidableEq

/-- Embeds `Motion.set_version`.  `None` deletes the selection.  An `int n`
runs `self.versions.all()[n]`: Django queryset indexing is 0-based, raises
`AssertionError` for a negative index ("Negative indexing is not supported")
and `IndexError` when `n ≥ count`.  A `MotionVersion` object is stored
directly; any other type raises `ValueError`. -/
def Motion.set_version (arg : VersionArg) (w : World) : Except PyError Unit × World :=
  match arg with
  | VersionArg.noneArg =>
      (Except.ok (), { w with motion := { w.motion with activeVersion := none } })
  | VersionArg.intArg n =>
      if n < 0 then (Except.error PyError.assertionError, w)
      else if h : n.toNat < w.ledger.length then
        (Except.ok (),
          { w with motion := { w.motion with activeVersion := some (w.ledger.get ⟨n.toNat, h⟩) } })
      else (Except.error PyError.indexError, w)
  | VersionArg.versionArg v =>
      (Except.ok (), { w with motion := { w.motion with activeVersion := some v } })
  | VersionArg.otherArg => (Except.error PyError.valueError, w)

/-- Embeds the `MotionVersion.version_number` property: `'new'` when the
object has no primary key yet, else
`MotionVersion.objects.filter(motion=self.motion).filter(id__lte=self.pk).count()`
(the ledger list passed here is exactly the motion's stored versions). -/
def MotionVersion.version_number (ledger : List StoredVersion) (pk : Option Nat) :
    Sum String Nat :=
  match pk with
  | none => Sum.inl "new"
  | some k => Sum.inr ((ledger.filter (fun r => decide (r.pk ≤ k))).length)

/-! ### Concrete fixtures used to instantiate theorems -/

/-- A concrete workflow state with both capabilities enabled and two allowed
successors. -/
def demoState : WfState := ⟨"1", "submitted", true, true, ["2", "3"]⟩

/-- A concrete workflow state with both capabilities disabled and no allowed
successors. -/
def demoState2 : WfState := ⟨"2", "finished", false, false, []⟩

/-- A concrete registry lookup: `"default"` and `"1"` resolve to `demoState`,
`"2"` to `demoState2`. -/
def demoResolve : String → Option WfState := fun t =>
  if t = "default" ∨ t = "1" then some demoState
  else if t = "2" then some demoState2 else none

/-- A concrete registry built over `demoResolve`. -/
def demoReg : Registry := ⟨demoResolve, demoState, by decide⟩

/-- A concrete world: one motion in state `"1"` with one stored version and
poll numbers 1 and 2. -/
def demoWorld : World :=
  { ledger := [⟨0, ⟨"A", "B", some "C"⟩⟩], nextPk := 1, polls := [1, 2],
    motion := { state_id := "1" } }

/-! ### Claims -/

/-- C10: for every version that has not yet been persisted (its primary key
is unset), `version_number` returns the string `'new'` rather than an
integer. -/
theorem c10_version_number_unsaved (ledger : List StoredVersion) :
    MotionVersion.version_number ledger none = Sum.inl "new" := rfl

/-- C5: for every motion whose current state allows polls, `create_poll`
returns a new poll whose `poll_number` is 1 plus the maximum of the motion's
existing poll numbers (`List.foldr max 0` is that maximum, 0 when the motion
has no polls), and appends exactly that poll to the motion's polls. -/
theorem c5_create_poll_next_number (reg : Registry) (w : World) (st : WfState)
    (hres : Motion.get_state reg w = some st) (hpoll : st.poll = true) :
    Motion.create_poll reg w =
      (Except.ok (w.polls.foldr max 0 + 1),
       { w with polls := w.polls ++ [w.polls.foldr max 0 + 1] }) := by
  simp [Motion.create_poll, hres, hpoll]

/-- C5 witness: on `demoWorld`, whose existing poll numbers are `{1, 2}`,
`create_poll` yields poll number 3. -/
theorem c5_witness :
    Motion.create_poll demoReg demoWorld =
      (Except.ok 3, { demoWorld with polls := [1, 2, 3] }) := by
  have h := c5_create_poll_next_number demoReg demoWorld demoState (by decide) (by decide)
  simpa [demoWorld] using h

/-- C6: for every motion whose current state has the `poll` capability flag
false, `create_poll` raises the capability denial (`WorkflowError`) and
leaves the world untouched: no poll record is created, the version ledger is
unchanged and `state_id` is unchanged. -/
theorem c6_create_poll_denied (reg : Registry) (w : World) (st : WfState)
    (hres : Motion.get_state reg w = some st) (hpoll : st.poll = false) :
    Motion.create_poll reg w = (Except.error PyError.workflowError, w) := by
  simp [Motion.create_poll, hres, hpoll]

/-- C6 witness: `demoWorld` moved to state `"2"` (whose `poll` flag is
false) is denied poll creation and left unchanged. -/
theorem c6_witness :
    Motion.create_poll demoReg
        { demoWorld with motion := { demoWorld.motion with state_id := "2" } } =
      (Except.error PyError.workflowError,
       { demoWorld with motion := { demoWorld.motion with state_id := "2" } }) := by
  exact c6_create_poll_denied demoReg _ demoState2 (by decide) (by decide)

/-- C4: for every motion with a resolvable current state and every state
`s`, `set_state` succeeds exactly when `s` is among the current state's
`next_states` (updating `state_id` to `s.id`); otherwise it raises
`WorkflowError` and leaves the world — in particular `state_id` —
unchanged. -/
theorem c4_set_state_iff (reg : Registry) (w : World) (cur s : WfState)
    (hres : Motion.get_state reg w = some cur) :
    (s.id ∈ cur.nextStates →
      Motion.set_state reg (StateArg.state s) w =
        (Except.ok (), { w with motion := { w.motion with state_id := s.id } }))
    ∧ (s.id ∉ cur.nextStates →
      Motion.set_state reg (StateArg.state s) w =
        (Except.error PyError.workflowError, w)) := by
  constructor <;> intro hmem <;> simp [Motion.set_state, hres, hmem]

/-- C4 witness: from state `"1"`, moving to `demoState2` (id `"2"`, an
allowed successor) succeeds, while moving to `demoState` itself (id `"1"`,
not an allowed successor) fails and leaves the world unchanged. -/
theorem c4_witness :
    Motion.set_state demoReg (StateArg.state demoState2) demoWorld =
      (Except.ok (), { demoWorld with motion := { demoWorld.motion with state_id := "2" } })
    ∧ Motion.set_state demoReg (StateArg.state demoState) demoWorld =
      (Except.error PyError.workflowError, demoWorld) := by
  constructor
  · exact (c4_set_state_iff demoReg demoWorld demoState demoState2 (by decide)).1 (by decide)
  · exact (c4_set_state_iff demoReg demoWorld demoState demoState (by decide)).2 (by decide)

/-- C8 counterexample: `demoWorld` has exactly one stored version, yet
selecting it by ordinal `1` raises `IndexError` instead of succeeding —
`self.versions.all()[n]` indexes 0-based, so the claimed range `[1, N]` is
wrong (ordinal `N` always fails and ordinal `0` succeeds). -/
theorem c8_counterexample :
    demoWorld.ledger.length = 1 ∧
    (Motion.set_version (VersionArg.intArg 1) demoWorld).fst =
      Except.error PyError.indexError := by
  constructor <;> rfl

/-- C8 amended: version selection by an integer is 0-based: ordinal `n`
succeeds for `0 ≤ n < N` and selects the `(n+1)`-th version in creation
order; it raises `IndexError` for `n ≥ N` and `AssertionError` for negative
`n` (Django refuses negative queryset indexes), in both cases leaving the
world unchanged; an argument that is neither `None`, an `int`, nor a
`MotionVersion` raises `ValueError` and leaves the world unchanged. -/
theorem c8_set_version_zero_based (w : World) (n : Int) :
    (∀ (_hnn : 0 ≤ n) (h : n.toNat < w.ledger.length),
      Motion.set_version (VersionArg.intArg n) w =
        (Except.ok (),
         { w with motion :=
            { w.motion with activeVersion := some (w.ledger.get ⟨n.toNat, h⟩) } }))
    ∧ (n < 0 →
      Motion.set_version (VersionArg.intArg n) w =
        (Except.error PyError.assertionError, w))
    ∧ (0 ≤ n → w.ledger.length ≤ n.toNat →
      Motion.set_version (VersionArg.intArg n) w =
        (Except.error PyError.indexError, w))
    ∧ Motion.set_version VersionArg.otherArg w =
        (Except.error PyError.valueError, w) := by
  refine ⟨?_, ?_, ?_, rfl⟩
  · intro hnn h
    simp only [Motion.set_version, not_lt.mpr hnn, if_false, h, dite_true]
  · intro hneg
    simp [Motion.set_version, hneg]
  · intro h0 hlen
    simp [Motion.set_version, not_lt.mpr h0, not_lt.mpr hlen]

/-- C8 amended witness: on `demoWorld` (one version), ordinal 0 selects the
first version, ordinal 5 raises `IndexError`, ordinal -1 raises
`AssertionError`, and a wrong-typed argument raises `ValueError`. -/
theorem c8_set_version_zero_based_witness :
    Motion.set_version (VersionArg.intArg 0) demoWorld =
      (Except.ok (),
       { demoWorld with motion :=
          { demoWorld.motion with activeVersion := some ⟨0, ⟨"A", "B", some "C"⟩⟩ } })
    ∧ Motion.set_version (VersionArg.intArg 5) demoWorld =
        (Except.error PyError.indexError, demoWorld)
    ∧ Motion.set_version (VersionArg.intArg (-1)) demoWorld =
        (Except.error PyError.assertionError, demoWorld)
    ∧ Motion.set_version VersionArg.otherArg demoWorld =
        (Except.error PyError.valueError, demoWorld) := by
  refine ⟨?_, ?_, ?_, ?_⟩
  · have h := (c8_set_version_zero_based demoWorld 0).1 (by decide) (by decide)
    simpa [demoWorld] using h
  · exact (c8_set_version_zero_based demoWorld 5).2.2.1 (by decide) (by decide)
  · exact (c8_set_version_zero_based demoWorld (-1)).2.1 (by decide)
  · exact (c8_set_version_zero_based demoWorld 0).2.2.2

/-- C7: for every motion whose current state allows support and every person
`p` with at most one pre-existing membership row, calling `support p` twice
in a row succeeds both times (the second call is a no-op, not an error) and
leaves exactly one supporter row for `p`. -/
theorem c7_support_idempotent (reg : Registry) (w : World) (st : WfState) (p : String)
    (hres : Motion.get_state reg w = some st) (hsup : st.support = true)
    (hcount : w.supporters.count p ≤ 1) :
    (Motion.support reg p w).fst = Except.ok ()
    ∧ (Motion.support reg p ((Motion.support reg p w).snd)).fst = Except.ok ()
    ∧ ((Motion.support reg p ((Motion.support reg p w).snd)).snd).supporters.count p = 1 := by
  by_cases hmem : p ∈ w.supporters
  · have hc : Motion.is_supporter w p = true := by
      simpa [Motion.is_supporter] using hmem
    have h1 : Motion.support reg p w = (Except.ok (), w) := by
      simp [Motion.support, hres, hsup, hc]
    have hone : w.supporters.count p = 1 :=
      le_antisymm hcount (List.count_pos_iff.mpr hmem)
    simp [h1, hone]
  · have hc : Motion.is_supporter w p = false := by
      simpa [Motion.is_supporter] using hmem
    have h1 : Motion.support reg p w =
        (Except.ok (), { w with supporters := w.supporters ++ [p] }) := by
      simp [Motion.support, hres, hsup, hc]
    have hres2 : Motion.get_state reg { w with supporters := w.supporters ++ [p] } = some st := hres
    have hc2 : Motion.is_supporter { w with supporters := w.supporters ++ [p] } p = true := by
      simp [Motion.is_supporter]
    have h2 : Motion.support reg p { w with supporters := w.supporters ++ [p] } =
        (Except.ok (), { w with supporters := w.supporters ++ [p] }) := by
      simp [Motion.support, hres2, hsup, hc2]
    have hzero : w.supporters.count p = 0 := List.count_eq_zero.mpr hmem
    simp [h1, h2, hzero]

/-- C7 witness: in `demoWorld` (state `"1"`, support allowed, no
supporters), supporting `"alice"` twice succeeds twice and leaves exactly
one membership row. -/
theorem c7_witness :
    (Motion.support demoReg "alice" demoWorld).fst = Except.ok ()
    ∧ (Motion.support demoReg "alice"
        ((Motion.support demoReg "alice" demoWorld).snd)).fst = Except.ok ()
    ∧ ((Motion.support demoReg "alice"
        ((Motion.support demoReg "alice" demoWorld).snd)).snd).supporters.count "alice" = 1 :=
  c7_support_idempotent demoReg demoWorld demoState "alice" (by decide) (by decide) (by decide)

/-- C2 (Scenario B): for every motion with exactly one committed version
`(title "A", text "B", reason "C")`, only `setTitle "A2"` staged and a clean
instance (no memoized new-version, no selected version), committing under
the always-create-new-version policy appends exactly one version: the ledger
becomes the old version followed by `("A2", "B", "C")` — the staged title is
written and its staged flag cleared, the unstaged text and reason are copied
forward from the last version into the brand-new record. -/
theorem c2_scenario_b (reg : Registry) (w : World) (pk0 : Nat)
    (hled : w.ledger = [⟨pk0, ⟨"A", "B", some "C"⟩⟩])
    (hT : w.motion.stagedTitle = some "A2")
    (hX : w.motion.stagedText = none)
    (hR : w.motion.stagedReason = none)
    (hC : w.motion.newVersionCache = none)
    (hA : w.motion.activeVersion = none) :
    (Motion.save reg true w).ledger =
      [⟨pk0, ⟨"A", "B", some "C"⟩⟩, ⟨w.nextPk, ⟨"A2", "B", some "C"⟩⟩]
    ∧ (Motion.save reg true w).motion.stagedTitle = none
    ∧ (Motion.save reg true w).motion.stagedText = none
    ∧ (Motion.save reg true w).motion.stagedReason = none := by
  obtain ⟨led, npk, sup, pol, mot⟩ := w
  obtain ⟨sid, st, sx, sr, nc, av⟩ := mot
  dsimp only at hled hT hX hR hC hA
  subst hled hT hX hR hC hA
  by_cases hsid : sid = "" <;>
    simp [Motion.save, Motion.reset_state, Motion.newDataCheck, Motion.get_title,
          Motion.get_text, Motion.get_reason, Motion.last_version, Motion.new_version,
          Motion.versionFieldUpdate, Motion.last_version_ref, hsid]

/-- C2 witness: the scenario run on `demoWorld` with title `"A2"` staged. -/
theorem c2_witness :
    (Motion.save demoReg true
        { demoWorld with motion := { demoWorld.motion with stagedTitle := some "A2" } }).ledger =
      [⟨0, ⟨"A", "B", some "C"⟩⟩, ⟨1, ⟨"A2", "B", some "C"⟩⟩]
    ∧ (Motion.save demoReg true
        { demoWorld with motion := { demoWorld.motion with stagedTitle := some "A2" } }).motion.stagedTitle = none := by
  have h := c2_scenario_b demoReg
      { demoWorld with motion := { demoWorld.motion with stagedTitle := some "A2" } }
      0 rfl rfl rfl rfl rfl rfl
  exact ⟨h.1, h.2.1⟩

/-- Helper: on a clean motion instance (nothing staged, no memoized
new-version object, no selected version) whose ledger is nonempty,
`Motion.save` only performs the default-state initialization and writes
nothing to the ledger. -/
theorem save_noop_clean (reg : Registry) (p : Bool) (w : World)
    (hled : w.ledger ≠ [])
    (hT : w.motion.stagedTitle = none) (hX : w.motion.stagedText = none)
    (hR : w.motion.stagedReason = none)
    (hC : w.motion.newVersionCache = none)
    (hA : w.motion.activeVersion = none) :
    Motion.save reg p w =
      if w.motion.state_id = "" then Motion.reset_state reg w else w := by
  obtain ⟨led, npk, sup, pol, mot⟩ := w
  obtain ⟨sid, st, sx, sr, nc, av⟩ := mot
  dsimp only at *
  subst hT hX hR hC hA
  obtain ⟨r, hr⟩ : ∃ r, led.getLast? = some r := by
    cases hgl : led.getLast? with
    | none => exact absurd (List.getLast?_eq_none_iff.mp hgl) hled
    | some r => exact ⟨r, rfl⟩
  by_cases hsid : sid = "" <;>
    simp [Motion.save, Motion.reset_state, Motion.newDataCheck, Motion.get_title,
          Motion.get_text, Motion.get_reason, Motion.last_version, Motion.new_version,
          hsid, hr]

/-- C1 counterexample: on a brand-new motion (empty ledger, nothing staged,
no new-version request ever made), the first `save` writes one version and
the second `save` writes another — two versions in total, not at most one,
and the second call is not a no-op on the ledger.  The `new_data` comparison
loop memoizes `_new_version` whenever the ledger is empty, and the
field-copy loop re-creates that memo after `save` deleted it, so the leak
survives into the second call and routes it into the create-new-version
branch. -/
theorem c1_counterexample :
    ({} : World).ledger.length = 0
    ∧ (Motion.save demoReg false ({} : World)).ledger.length = 1
    ∧ (Motion.save demoReg false (Motion.save demoReg false ({} : World))).ledger.length = 2 :=
  ⟨rfl, rfl, rfl⟩

/-- C1 amended: for every motion with at least one persisted version and a
clean instance (nothing staged, no memoized `_new_version` object, no
selected `_version`), calling `save` twice in a row — under either policy,
with no staged changes and no new-version request between the calls —
writes nothing to the ledger on either call. -/
theorem c1_no_op_commit (reg : Registry) (p q : Bool) (w : World)
    (hled : w.ledger ≠ [])
    (hT : w.motion.stagedTitle = none) (hX : w.motion.stagedText = none)
    (hR : w.motion.stagedReason = none)
    (hC : w.motion.newVersionCache = none)
    (hA : w.motion.activeVersion = none) :
    (Motion.save reg p w).ledger = w.ledger
    ∧ (Motion.save reg q (Motion.save reg p w)).ledger = w.ledger := by
  have h1 := save_noop_clean reg p w hled hT hX hR hC hA
  constructor
  · rw [h1]; split <;> rfl
  · rw [h1]
    split
    · have h2 := save_noop_clean reg q (Motion.reset_state reg w) hled hT hX hR hC hA
      rw [h2]; split <;> rfl
    · have h2 := save_noop_clean reg q w hled hT hX hR hC hA
      rw [h2]; split <;> rfl

/-- C1 amended witness: two no-change saves on `demoWorld` (one stored
version, clean instance) leave its one-version ledger untouched. -/
theorem c1_no_op_commit_witness :
    (Motion.save demoReg true demoWorld).ledger = demoWorld.ledger
    ∧ (Motion.save demoReg false (Motion.save demoReg true demoWorld)).ledger
        = demoWorld.ledger :=
  c1_no_op_commit demoReg true false demoWorld (by decide) rfl rfl rfl rfl rfl

set_option maxHeartbeats 1000000

/-- Helper: when the `_new_version` memo is already present, the `new_data`
comparison loop reads it (or the stored last version) without changing any
state. -/
theorem newDataCheck_snd_cacheSome (w : World) (o : MotionVersion)
    (hC : w.motion.newVersionCache = some o) :
    (Motion.newDataCheck w).snd = w := by
  obtain ⟨led, npk, sup, pol, ⟨sid, st, sx, sr, nc, av⟩⟩ := w
  dsimp only at hC
  subst hC
  unfold Motion.newDataCheck Motion.get_title Motion.get_text Motion.get_reason
    Motion.last_version Motion.new_version
  rcases st with _ | t <;> rcases sx with _ | x <;> rcases sr with _ | r <;>
    rcases av with _ | a <;>
    rcases hgl : led.getLast? with _ | lr <;>
    simp only [hgl]
  all_goals repeat' split
  all_goals rfl

/-- Helper: the attribute-copy loop never touches the ledger. -/
theorem versionFieldUpdate_ledger (w : World) :
    (Motion.versionFieldUpdate w).snd.ledger = w.ledger := by
  obtain ⟨led, npk, sup, pol, ⟨sid, st, sx, sr, nc, av⟩⟩ := w
  unfold Motion.versionFieldUpdate Motion.last_version Motion.new_version
  rcases st with _ | t <;> rcases sx with _ | x <;> rcases sr with _ | r <;>
    rcases nc with _ | o <;>
    rcases hgl : led.getLast? with _ | lr <;>
    simp only [hgl]

/-- Helper: whenever a `_new_version` memo is pending, `Motion.save` takes
the create-new-version branch and appends exactly one version to the
ledger. -/
theorem save_appends_of_cacheSome (reg : Registry) (p : Bool) (w : World) (o : MotionVersion)
    (hC : w.motion.newVersionCache = some o) :
    (Motion.save reg p w).ledger.length = w.ledger.length + 1 := by
  unfold Motion.save
  dsimp only
  generalize hg : (if w.motion.state_id = "" then Motion.reset_state reg w else w) = w1
  have hC1 : w1.motion.newVersionCache = some o := by
    rw [← hg]; split <;> simpa [Motion.reset_state] using hC
  have hL1 : w1.ledger = w.ledger := by rw [← hg]; split <;> rfl
  rcases hnd : Motion.newDataCheck w1 with ⟨nd, w2⟩
  have hw2 : w2 = w1 := by
    have h := newDataCheck_snd_cacheSome w1 o hC1
    rw [hnd] at h; exact h
  subst hw2
  dsimp only
  rw [hC1]
  have hcond : (some o).isSome = true ∨ nd = true ∧ p = true := Or.inl rfl
  rw [if_pos hcond]
  simp only [Motion.new_version, hC1]
  rcases hvf : Motion.versionFieldUpdate
      { w2 with motion := { w2.motion with newVersionCache := none } } with ⟨⟨t, x, r⟩, w5⟩
  have hL5 : w5.ledger = w2.ledger := by
    have h := versionFieldUpdate_ledger
      { w2 with motion := { w2.motion with newVersionCache := none } }
    rw [hvf] at h; exact h
  simp only [hvf]
  simp [hL5, hL1]

/-- C9: for every motion whose ledger is empty (and whose `_new_version`
memo is not yet created), reading `last_version` never yields an
empty/`None` result: it returns the freshly constructed unsaved version
object (Django defaults `("", "", None)`), memoizes it in `_new_version`, a
repeated read returns the same object without further state change, and the
memo routes the next `save` into the create-new-version branch, so that save
synthesizes the ledger's first version. -/
theorem c9_last_version_empty (reg : Registry) (p : Bool) (w : World)
    (hled : w.ledger = []) (hC : w.motion.newVersionCache = none) :
    (Motion.last_version w).fst = ({} : MotionVersion)
    ∧ ((Motion.last_version w).snd).motion.newVersionCache =
        some ((Motion.last_version w).fst)
    ∧ Motion.last_version ((Motion.last_version w).snd) =
        ((Motion.last_version w).fst, (Motion.last_version w).snd)
    ∧ (Motion.save reg p ((Motion.last_version w).snd)).ledger.length = 1 := by
  obtain ⟨led, npk, sup, pol, ⟨sid, st, sx, sr, nc, av⟩⟩ := w
  dsimp only at hled hC
  subst hled hC
  refine ⟨rfl, rfl, rfl, ?_⟩
  have h := save_appends_of_cacheSome reg p
      ((Motion.last_version ⟨[], npk, sup, pol, ⟨sid, st, sx, sr, none, av⟩⟩).snd)
      ({} : MotionVersion) rfl
  simpa using h

/-- C9 witness: a brand-new motion in state `"1"` with an empty ledger. -/
theorem c9_witness :
    (Motion.last_version { motion := { state_id := "1" } }).fst = ({} : MotionVersion)
    ∧ ((Motion.last_version { motion := { state_id := "1" } }).snd).motion.newVersionCache =
        some ((Motion.last_version { motion := { state_id := "1" } }).fst)
    ∧ Motion.last_version ((Motion.last_version { motion := { state_id := "1" } }).snd) =
        ((Motion.last_version { motion := { state_id := "1" } }).fst,
         (Motion.last_version { motion := { state_id := "1" } }).snd)
    ∧ (Motion.save demoReg true
        ((Motion.last_version { motion := { state_id := "1" } }).snd)).ledger.length = 1 :=
  c9_last_version_empty demoReg true { motion := { state_id := "1" } } rfl rfl

/-- Helper: in a ledger whose pks strictly increase in creation order, the
rows with pk at most the i-th row's pk are exactly the first `i + 1` rows. -/
theorem filter_pk_le_sorted (l : List StoredVersion)
    (hs : l.Pairwise (fun a b => a.pk < b.pk)) (i : Nat) (h : i < l.length) :
    (l.filter (fun r => decide (r.pk ≤ (l.get ⟨i, h⟩).pk))).length = i + 1 := by
  induction l generalizing i with
  | nil => simp at h
  | cons a t ih =>
    rcases List.pairwise_cons.mp hs with ⟨ha, ht⟩
    cases i with
    | zero =>
      have hnil : t.filter (fun r => decide (r.pk ≤ a.pk)) = [] := by
        rw [List.filter_eq_nil_iff]
        intro b hb
        simpa using (ha b hb).not_le
      simp [List.filter_cons, hnil]
    | succ j =>
      have hj : j < t.length := by simpa using h
      have hlt : a.pk < (t.get ⟨j, hj⟩).pk := ha _ (List.get_mem t j hj)
      simp only [List.filter_cons, List.get_cons_succ, decide_eq_true_eq]
      have := ih ht j hj
      rw [if_pos hlt.le, List.length_cons, this]

/-- Helper: in a ledger whose pks strictly increase in creation order, the
rows created strictly before the i-th row are exactly the first `i` rows. -/
theorem filter_pk_lt_sorted (l : List StoredVersion)
    (hs : l.Pairwise (fun a b => a.pk < b.pk)) (i : Nat) (h : i < l.length) :
    (l.filter (fun r => decide (r.pk < (l.get ⟨i, h⟩).pk))).length = i := by
  induction l generalizing i with
  | nil => simp at h
  | cons a t ih =>
    rcases List.pairwise_cons.mp hs with ⟨ha, ht⟩
    cases i with
    | zero =>
      have hnil : t.filter (fun r => decide (r.pk < a.pk)) = [] := by
        rw [List.filter_eq_nil_iff]
        intro b hb
        simpa using (ha b hb).not_lt
      simp [List.filter_cons, hnil]
    | succ j =>
      have hj : j < t.length := by simpa using h
      have hlt : a.pk < (t.get ⟨j, hj⟩).pk := ha _ (List.get_mem t j hj)
      simp only [List.filter_cons, List.get_cons_succ, decide_eq_true_eq]
      have := ih ht j hj
      rw [if_pos hlt, List.length_cons, this]

/-- C3: in a ledger whose pks strictly increase in creation order (which is
how rows are created: Django autofields grow monotonically), the stored
version at creation position `i` (0-based) has `version_number = i + 1` —
so the sequence of version numbers in creation order is exactly 1, …, N —
and the number of versions of the motion created strictly before it is `i`,
making `version_number` equal to 1 plus the number created strictly
before. -/
theorem c3_version_numbers (ledger : List StoredVersion)
    (hs : ledger.Pairwise (fun a b => a.pk < b.pk))
    (i : Nat) (h : i < ledger.length) :
    MotionVersion.version_number ledger (some (ledger.get ⟨i, h⟩).pk) = Sum.inr (i + 1)
    ∧ (ledger.filter (fun r => decide (r.pk < (ledger.get ⟨i, h⟩).pk))).length = i := by
  refine ⟨?_, filter_pk_lt_sorted ledger hs i h⟩
  simp only [MotionVersion.version_number]
  rw [filter_pk_le_sorted ledger hs i h]

/-- C3 witness: in the three-version ledger with pks 3, 5, 9, the version
with pk 5 (creation position 1) has `version_number` 2 and exactly one
version created strictly before it. -/
theorem c3_witness :
    MotionVersion.version_number
        [⟨3, {}⟩, ⟨5, {}⟩, ⟨9, {}⟩] (some 5) = Sum.inr 2
    ∧ (([⟨3, {}⟩, ⟨5, {}⟩, ⟨9, {}⟩] : List StoredVersion).filter
        (fun r => decide (r.pk < 5))).length = 1 := by
  have h := c3_version_numbers [⟨3, {}⟩, ⟨5, {}⟩, ⟨9, {}⟩] (by decide) 1 (by decide)
  simpa using h
